import Mathlib

/-!
Shallow embedding of the IMF economic dashboard (`src/app.py`) for
verification of its natural-language specification.

The upstream HTTP layer (`requests.get`) is modelled as an oracle
`net : String → RawResponse` mapping the request URL to the raw outcome.
Python exceptions inside the `try` block of `obtener_datos_fmi` are
modelled by `Option`: `none` means "an exception was raised", which the
`except` branch converts into an empty series plus an error notice.
Floating-point values are modelled as `Rat` (the numeric semantics of
the claims never depends on rounding).
-/

/-- A JSON value, restricted to the shapes the dashboard ever inspects
(objects, strings, numbers, null).  Arrays and booleans never occur in
the claims' scenarios and would behave like `null` under coercion. -/
inductive J where
  | obj (fields : List (String × J))
  | str (s : String)
  | num (q : Rat)
  | null

/-- Body of an HTTP response: either `.json j` (the payload parsed by
`response.json()`) or `.invalid` (the `.json()` call raises). -/
inductive Body where
  | invalid
  | json (j : J)

/-- Outcome of `requests.get(url)`: a transport-level exception, or a
response carrying an HTTP status code and a body. -/
inductive RawResponse where
  | transportError
  | status (code : Nat) (body : Body)

/-- Dictionary access `j[k]` on a JSON value: `none` models the
`KeyError`/`TypeError` raised when the key is missing or the value is
not an object (source line 63). -/
def jGet : J → String → Option J
  | J.obj fs, k => List.lookup k fs
  | _, _ => none

/-- The request URL built on source line 58. -/
def buildUrl (indicador_codigo pais_iso2 : String) (start_year end_year : Int) : String :=
  s!"https://www.imf.org/external/datamapper/api/v1/{indicador_codigo}/{pais_iso2}?periods={start_year}-{end_year}"

/-- Value of a nonempty all-digit character list, `none` otherwise. -/
def digitsVal (l : List Char) : Option Nat :=
  if l ≠ [] ∧ l.all Char.isDigit then
    some (l.foldl (fun n c => n * 10 + (c.toNat - 48)) 0)
  else none

/-- Python `int(s)` on a string, as used by `df.index.astype(int)`
(source line 66): optional sign followed by digits; anything else
raises, modelled as `none`. -/
def pyParseInt (s : String) : Option Int :=
  match s.data with
  | [] => none
  | c :: rest =>
    if c = '-' then (digitsVal rest).map (fun n => -(n : Int))
    else if c = '+' then (digitsVal rest).map (fun n => (n : Int))
    else (digitsVal (c :: rest)).map (fun n => (n : Int))

/-- Digit-list value where the empty list counts as 0 (used for the
integer and fractional parts around a decimal point). -/
def digitsVal0 (l : List Char) : Nat :=
  l.foldl (fun n c => n * 10 + (c.toNat - 48)) 0

/-- Unsigned decimal literal: `"100"`, `"105.5"`, `"1."`, `".5"`.
Anything else fails.  (Exponents and `inf`/`nan` spellings are outside
the claims' scenarios.)  The value `ip.fp` is the exact rational
`(ip * 10^k + fp) / 10^k`, built with `mkRat` so that it evaluates by
kernel reduction. -/
def parseDecimal (l : List Char) : Option Rat :=
  match l.span (fun c => c != '.') with
  | (ip, []) =>
    if ip ≠ [] ∧ ip.all Char.isDigit then some ((digitsVal0 ip : Nat) : Rat) else none
  | (ip, _ :: fp) =>
    if (ip ≠ [] ∨ fp ≠ []) ∧ ip.all Char.isDigit ∧ fp.all Char.isDigit then
      some (mkRat (digitsVal0 ip * 10 ^ fp.length + digitsVal0 fp) (10 ^ fp.length))
    else none

/-- Numeric parse of a string as performed by `pd.to_numeric` on a
string cell: optional sign then a decimal literal; failure yields
`none` (which `errors="coerce"` turns into NaN). -/
def pyParseFloat (s : String) : Option Rat :=
  match s.data with
  | [] => none
  | c :: rest =>
    if c = '-' then (parseDecimal rest).map (fun q => -q)
    else if c = '+' then parseDecimal rest
    else parseDecimal (c :: rest)

/-- `pd.to_numeric(x, errors="coerce")` on one cell (source line 68):
numbers pass through, numeric strings are parsed, everything else
becomes NaN (modelled as `none`, later removed by `dropna`). -/
def toNumericJ : J → Option Rat
  | J.num q => some q
  | J.str s => pyParseFloat s
  | J.null => none
  | J.obj _ => none

/-- `data["values"][indicador_codigo][pais_iso2]` (source line 63),
requiring the final value to be a JSON object so that
`pd.DataFrame.from_dict` succeeds; any failure on this path raises,
modelled as `none`. -/
def getSeries (j : J) (ind c : String) : Option (List (String × J)) :=
  match ((jGet j "values").bind (fun v => jGet v ind)).bind (fun v => jGet v c) with
  | some (J.obj fs) => some fs
  | _ => none

/-- All-or-nothing traversal of a list under a fallible function; a
single failure fails the whole list (the semantics of a raising
vectorised pandas operation such as `astype(int)`). -/
def optMapM {α β : Type} (f : α → Option β) : List α → Option (List β)
  | [] => some []
  | a :: as =>
    match f a with
    | none => none
    | some b =>
      match optMapM f as with
      | none => none
      | some bs => some (b :: bs)

/-- `df.index = df.index.astype(int)` (source line 66): every year key
must parse as an integer or the whole conversion raises. -/
def convertIndex (rows : List (String × J)) : Option (List (Int × J)) :=
  optMapM (fun kv => (pyParseInt kv.1).map (fun y => (y, kv.2))) rows

/-- Lines 65-71 of the source after the index conversion: coerce every
value with `pd.to_numeric(errors="coerce")`, then `dropna()` removes
the rows whose value failed coercion.  Row order (the upstream JSON
object order) is preserved; nothing is sorted or range-filtered. -/
def normalizeSeries (rows : List (String × J)) : Option (List (Int × Rat)) :=
  (convertIndex rows).map
    (fun l => l.filterMap (fun yv => (toNumericJ yv.2).map (fun q => (yv.1, q))))

/-- The part of the try block from `response.json()` onwards (source
lines 62-71), given the response body: `none` means a statement
raised. -/
def bodyPipeline (ind c : String) : Body → Option (List (Int × Rat))
  | Body.invalid => none
  | Body.json j =>
    match getSeries j ind c with
    | none => none
    | some rows => normalizeSeries rows

/-- The body of the `try` block of `obtener_datos_fmi` (source lines
57-71): `none` means some statement raised and control reaches the
`except` branch.  `raise_for_status` raises exactly on 4xx/5xx
status codes. -/
def fetchPipeline (resp : RawResponse) (ind c : String) : Option (List (Int × Rat)) :=
  match resp with
  | RawResponse.transportError => none
  | RawResponse.status code body =>
    if 400 ≤ code ∧ code < 600 then none else bodyPipeline ind c body

/-- Observable outcome of one (uncached) execution of
`obtener_datos_fmi`: the returned series, whether `st.error` was
called, and whether `time.sleep(0.5)` ran.  (`time.sleep` sits between
`to_numeric` and the final `dropna`; since `dropna` cannot raise, the
sleep runs exactly when the pipeline succeeds.) -/
structure FetchResult where
  series : List (Int × Rat)
  errorNotice : Bool
  slept : Bool
deriving DecidableEq

/-- `obtener_datos_fmi` (source lines 55-75), with the cache decorator
stripped (it is modelled separately by `cachedFetchStep`): run the try
block; on success return the series having slept, on any exception
call `st.error` and return an empty DataFrame. -/
def obtener_datos_fmi (net : String → RawResponse) (pais_iso2 indicador_codigo : String)
    (start_year end_year : Int) : FetchResult :=
  match fetchPipeline (net (buildUrl indicador_codigo pais_iso2 start_year end_year))
      indicador_codigo pais_iso2 with
  | some pts => ⟨pts, false, true⟩
  | none => ⟨[], true, false⟩

/-- Spec-level failure classification: the fetch "parses" when the try
block runs to completion (no transport failure, no 4xx/5xx status,
valid JSON, the `values[ind][country]` path present, every year key an
integer). -/
def fetchParses (resp : RawResponse) (ind c : String) : Bool :=
  (fetchPipeline resp ind c).isSome

/-- The year keys of the upstream series, parsed as integers, in
response order — the input against which the output ordering of
`obtener_datos_fmi` is compared (the code does not reorder them). -/
def bodyYears (ind c : String) : Body → List Int
  | Body.invalid => []
  | Body.json j =>
    match getSeries j ind c with
    | none => []
    | some rows =>
      match optMapM (fun kv => pyParseInt kv.1) rows with
      | some ys => ys
      | none => []

def responseYears (resp : RawResponse) (ind c : String) : List Int :=
  match resp with
  | RawResponse.transportError => []
  | RawResponse.status code body =>
    if 400 ≤ code ∧ code < 600 then [] else bodyYears ind c body

/-!
### Cache model

`@st.cache_data(ttl=3600)` (source line 55) memoises the return value
of `obtener_datos_fmi` keyed by the full argument tuple, for 3600
seconds of wall-clock time.  The decorator is modelled by an explicit
cache state (entry = key, insertion time, stored series) and a step
function `cachedFetchStep` that either hits the cache (no network
call, no sleep) or runs the function body and stores its result —
whichever branch of the body produced it, so failed fetches are cached
too.
-/

/-- Cache key: the full argument tuple of `obtener_datos_fmi`. -/
structure CacheKey where
  pais_iso2 : String
  indicador_codigo : String
  start_year : Int
  end_year : Int
deriving DecidableEq

/-- Cache state: for each key, the wall-clock time the entry was
stored and the stored series. -/
abbrev Cache := List (CacheKey × Nat × List (Int × Rat))

/-- Cache lookup at wall-clock time `now`: an entry hits only while
younger than the 3600-second time-to-live. -/
def lookupFresh (c : Cache) (now : Nat) (k : CacheKey) : Option (List (Int × Rat)) :=
  match c.find? (fun e => decide (e.1 = k)) with
  | some e => if now < e.2.1 + 3600 then some e.2.2 else none
  | none => none

/-- Store (or refresh) the entry for `k` at time `now`. -/
def cacheInsert (c : Cache) (k : CacheKey) (now : Nat) (v : List (Int × Rat)) : Cache :=
  (k, now, v) :: c.filter (fun e => decide (e.1 ≠ k))

/-- Observable outcome of one cached call: the returned series, the
cache state afterwards, how many network requests were issued (0 or
1), the artificial delay incurred (`mkRat 1 2` models the 0.5-second
`time.sleep`), and whether an error notice was emitted by this
execution. -/
structure StepOut where
  value : List (Int × Rat)
  cache : Cache
  networkCalls : Nat
  delay : Rat
  errorNotice : Bool

/-- One call of the decorated `obtener_datos_fmi`: return the cached
series on a fresh hit (no network, no sleep), otherwise execute the
function body once and cache whatever it returned. -/
def cachedFetchStep (c : Cache) (now : Nat) (net : String → RawResponse)
    (pais_iso2 indicador_codigo : String) (start_year end_year : Int) : StepOut :=
  match lookupFresh c now ⟨pais_iso2, indicador_codigo, start_year, end_year⟩ with
  | some v => ⟨v, c, 0, 0, false⟩
  | none =>
    let r := obtener_datos_fmi net pais_iso2 indicador_codigo start_year end_year
    ⟨r.series,
     cacheInsert c ⟨pais_iso2, indicador_codigo, start_year, end_year⟩ now r.series,
     1,
     if r.slept then mkRat 1 2 else 0,
     r.errorNotice⟩

/-!
### Catalogs and the per-indicator driver
-/

/-- One entry of the `PAISES` dictionary (source lines 19-32): the
internal 3-letter key, the display name, and the 2-letter code used by
the upstream API. -/
structure Pais where
  codigo : String
  nombre : String
  iso2 : String
deriving DecidableEq

def paisUSA : Pais := ⟨"USA", "Estados Unidos", "US"⟩
def paisMEX : Pais := ⟨"MEX", "México", "MX"⟩
def paisBRA : Pais := ⟨"BRA", "Brasil", "BR"⟩
def paisESP : Pais := ⟨"ESP", "España", "ES"⟩
def paisARG : Pais := ⟨"ARG", "Argentina", "AR"⟩
def paisCOL : Pais := ⟨"COL", "Colombia", "CO"⟩
def paisCHL : Pais := ⟨"CHL", "Chile", "CL"⟩
def paisPER : Pais := ⟨"PER", "Perú", "PE"⟩
def paisDEU : Pais := ⟨"DEU", "Alemania", "DE"⟩
def paisFRA : Pais := ⟨"FRA", "Francia", "FR"⟩
def paisGBR : Pais := ⟨"GBR", "Reino Unido", "GB"⟩
def paisCHN : Pais := ⟨"CHN", "China", "CN"⟩

/-- The country catalog `PAISES`. -/
def PAISES : List Pais :=
  [paisUSA, paisMEX, paisBRA, paisESP, paisARG, paisCOL,
   paisCHL, paisPER, paisDEU, paisFRA, paisGBR, paisCHN]

/-- One row of an `AggregatedPanel`: a data point tagged with the
producing country's display name (`df["País"] = ...`, line 135). -/
structure PanelRow where
  year : Int
  valor : Rat
  pais : String
deriving DecidableEq

/-- `df["País"] = PAISES[pais]["nombre"]` applied to a fetched series. -/
def tagRows (p : Pais) (df : List (Int × Rat)) : List PanelRow :=
  df.map (fun pt => ⟨pt.1, pt.2, p.nombre⟩)

/-- The per-indicator loop (e.g. source lines 131-136): one fetch per
selected country, in order; countries whose result is empty are
skipped, the rest are tagged and collected.  Returns the collected
per-country tables and the list of countries for which a fetch was
issued (exactly one call per loop iteration). -/
def runPanelLoop (fetchFn : Pais → List (Int × Rat)) :
    List Pais → List (List PanelRow) × List Pais
  | [] => ([], [])
  | p :: rest =>
    let df := fetchFn p
    let r := runPanelLoop fetchFn rest
    (if df = [] then r.1 else tagRows p df :: r.1, p :: r.2)

/-- `crear_grafico_comparativo` (source lines 77-99), reduced to its
observable outcome: `(chartRendered, warningShown)`.  An empty input
shows the "No hay datos disponibles" warning and returns; otherwise a
chart is drawn. -/
def crear_grafico_comparativo (df : List PanelRow) : Bool × Bool :=
  if df = [] then (false, true) else (true, false)

/-- Observable outcome of one indicator panel block. -/
structure DriverOutput where
  panel : List PanelRow
  fetchCalls : List Pais
  chartRendered : Bool
  warningShown : Bool
deriving DecidableEq

/-- One indicator block (source lines 131-139): run the loop, then
`if datos: crear_grafico_comparativo(pd.concat(datos), ...)` — when no
country produced data the block renders nothing at all. -/
def renderIndicatorPanel (fetchFn : Pais → List (Int × Rat)) (sel : List Pais) :
    DriverOutput :=
  let r := runPanelLoop fetchFn sel
  if r.1 = [] then ⟨[], r.2, false, false⟩
  else
    let df := r.1.flatten
    let g := crear_grafico_comparativo df
    ⟨df, r.2, g.1, g.2⟩

/-- The indicator block with the fetch instantiated to the real
(uncached) service, as in `obtener_datos_fmi(PAISES[pais]["iso2"],
indicador, año_inicio, anioFin)`. -/
def datosPanel (net : String → RawResponse) (sel : List Pais) (ind : String)
    (start_year end_year : Int) : DriverOutput :=
  renderIndicatorPanel
    (fun p => (obtener_datos_fmi net p.iso2 ind start_year end_year).series) sel

/-!
### Trade-balance block (source lines 166-187)
-/

/-- One row appended to `datos_balanza` (source lines 176-180). -/
structure BalanzaRecord where
  pais : String
  exportaciones : Rat
  importaciones : Rat
deriving DecidableEq

/-- The trade-balance loop: per country, fetch the exports indicator
and the imports indicator, both restricted to the single year
`anioFin`; keep the first value of each when both series are
non-empty.  Also returns the list of fetch calls issued, as
`(iso2, indicator, start, end)` tuples. -/
def balanzaLoop (net : String → RawResponse) (anioFin : Int) :
    List Pais → List BalanzaRecord × List (String × String × Int × Int)
  | [] => ([], [])
  | p :: rest =>
    let dfExport := (obtener_datos_fmi net p.iso2 "TXG_FOB_USD" anioFin anioFin).series
    let dfImport := (obtener_datos_fmi net p.iso2 "TMG_CIF_USD" anioFin anioFin).series
    let r := balanzaLoop net anioFin rest
    let calls := (p.iso2, "TXG_FOB_USD", anioFin, anioFin) ::
      (p.iso2, "TMG_CIF_USD", anioFin, anioFin) :: r.2
    match dfExport, dfImport with
    | e :: _, i :: _ => (⟨p.nombre, e.2, i.2⟩ :: r.1, calls)
    | _, _ => (r.1, calls)

/-- `df_balanza.melt(id_vars="País", var_name="Tipo", value_name="Valor")`
(source line 184): one grouped bar per record and value column, the
bar label being the source column name. -/
def balanzaBars (recs : List BalanzaRecord) : List (String × String × Rat) :=
  recs.map (fun r => (r.pais, "Exportaciones", r.exportaciones)) ++
    recs.map (fun r => (r.pais, "Importaciones", r.importaciones))

def jC3 : J :=
  J.obj [("values", J.obj [("NGDP_R", J.obj [("US", J.obj
    [("2020", J.str "100"), ("2021", J.str "105.5"), ("2022", J.null)])])])]

def netC3 : String → RawResponse := fun _ => RawResponse.status 200 (Body.json jC3)

/-!
### Concrete scenarios used by witnesses and counterexamples
-/

/-- The mocked upstream of the spec's C3 scenario: a response with a
numeric-string value, a fractional value, and a `null` value. -/
def rowsC3 : List (String × J) :=
  [("2020", J.str "100"), ("2021", J.str "105.5"), ("2022", J.null)]

/-- A network oracle that always fails at the transport layer. -/
def netFail : String → RawResponse := fun _ => RawResponse.transportError

/-- Upstream whose year keys are out of the requested range and out of
order: `{"2025": 5, "2019": 3}`. -/
def jC4 : J :=
  J.obj [("values", J.obj [("NGDP_R", J.obj [("US", J.obj
    [("2025", J.num 5), ("2019", J.num 3)])])])]

def netC4 : String → RawResponse := fun _ => RawResponse.status 200 (Body.json jC4)

/-- Upstream carrying a series for the US only, so that a fetch for
MX fails on the schema path while a fetch for US succeeds. -/
def jC6 : J :=
  J.obj [("values", J.obj [("NGDP_R", J.obj [("US", J.obj
    [("2020", J.num 100), ("2021", J.num 105)])])])]

def netC6 : String → RawResponse := fun _ => RawResponse.status 200 (Body.json jC6)

/-- The per-country fetch of the GDP panel against `netC6` for the
2020-2021 range. -/
def fetchC6 : Pais → List (Int × Rat) :=
  fun p => (obtener_datos_fmi netC6 p.iso2 "NGDP_R" 2020 2021).series

/-- Upstream for the trade-balance scenario: exports 50 and imports 70
for the US in 2023. -/
def jC7 : J :=
  J.obj [("values", J.obj
    [("TXG_FOB_USD", J.obj [("US", J.obj [("2023", J.num 50)])]),
     ("TMG_CIF_USD", J.obj [("US", J.obj [("2023", J.num 70)])])])]

def netC7 : String → RawResponse := fun _ => RawResponse.status 200 (Body.json jC7)

/-- Upstream whose series contains a year key that `int()` rejects. -/
def jC10 : J :=
  J.obj [("values", J.obj [("NGDP_R", J.obj [("US", J.obj
    [("2020", J.num 1), ("abc", J.num 2)])])])]

def netC10 : String → RawResponse := fun _ => RawResponse.status 200 (Body.json jC10)

/-- The point a series row contributes when its year key parses and
its value coerces; `none` when the value fails coercion. -/
def rowPoint (kv : String × J) : Option (Int × Rat) :=
  match pyParseInt kv.1, toNumericJ kv.2 with
  | some y, some q => some (y, q)
  | _, _ => none

/-!
### Basic lemmas about the fetch service
-/

theorem obtener_eq_error {net : String → RawResponse} {pais ind : String} {sy ey : Int}
    (h : fetchPipeline (net (buildUrl ind pais sy ey)) ind pais = none) :
    obtener_datos_fmi net pais ind sy ey = ⟨[], true, false⟩ := by
  unfold obtener_datos_fmi
  rw [h]

theorem obtener_eq_ok {net : String → RawResponse} {pais ind : String} {sy ey : Int}
    {pts : List (Int × Rat)}
    (h : fetchPipeline (net (buildUrl ind pais sy ey)) ind pais = some pts) :
    obtener_datos_fmi net pais ind sy ey = ⟨pts, false, true⟩ := by
  unfold obtener_datos_fmi
  rw [h]

/-- The sleep runs exactly when the try block succeeds. -/
theorem obtener_slept_eq (net : String → RawResponse) (pais ind : String) (sy ey : Int) :
    (obtener_datos_fmi net pais ind sy ey).slept =
      fetchParses (net (buildUrl ind pais sy ey)) ind pais := by
  unfold fetchParses
  cases h : fetchPipeline (net (buildUrl ind pais sy ey)) ind pais with
  | none => rw [obtener_eq_error h]; rfl
  | some pts => rw [obtener_eq_ok h]; rfl

/-- An execution that raised the error notice returned the empty
DataFrame. -/
theorem obtener_series_empty_of_error {net : String → RawResponse} {pais ind : String}
    {sy ey : Int} (h : (obtener_datos_fmi net pais ind sy ey).errorNotice = true) :
    (obtener_datos_fmi net pais ind sy ey).series = [] := by
  cases hp : fetchPipeline (net (buildUrl ind pais sy ey)) ind pais with
  | none => rw [obtener_eq_error hp]
  | some pts => rw [obtener_eq_ok hp] at h ⊢; exact absurd h (by simp)

/-!
### Claim C1
-/

/-- Claim C1: for every input tuple `(countryApiCode, indicatorApiCode,
startYear, endYear)` — any integer year range included, since the
theorem quantifies over all `start_year end_year : Int` — the fetch
never propagates an exception: whenever the try block fails (transport
failure, 4xx/5xx status, invalid JSON, schema mismatch, unparseable
year index), `obtener_datos_fmi` returns the empty SeriesResult and
emits the user-visible error notice instead of faulting. -/
theorem claim_C1 (net : String → RawResponse) (pais_iso2 indicador_codigo : String)
    (start_year end_year : Int)
    (h : fetchParses (net (buildUrl indicador_codigo pais_iso2 start_year end_year))
      indicador_codigo pais_iso2 = false) :
    (obtener_datos_fmi net pais_iso2 indicador_codigo start_year end_year).series = [] ∧
    (obtener_datos_fmi net pais_iso2 indicador_codigo start_year end_year).errorNotice
      = true := by
  unfold fetchParses at h
  cases hp : fetchPipeline (net (buildUrl indicador_codigo pais_iso2 start_year end_year))
      indicador_codigo pais_iso2 with
  | none => rw [obtener_eq_error hp]; exact ⟨rfl, rfl⟩
  | some pts => rw [hp] at h; exact absurd h (by simp)

/-- Witness for C1 at a concrete failing input: a transport error on
the 2020-2022 range. -/
theorem claim_C1_witness :
    fetchParses (netFail (buildUrl "NGDP_R" "US" 2020 2022)) "NGDP_R" "US" = false ∧
    (obtener_datos_fmi netFail "US" "NGDP_R" 2020 2022).series = [] ∧
    (obtener_datos_fmi netFail "US" "NGDP_R" 2020 2022).errorNotice = true :=
  ⟨rfl, claim_C1 netFail "US" "NGDP_R" 2020 2022 rfl⟩
/-!
### Claim C3
-/

/-- When every year key of the series parses as an integer, the
normalisation succeeds and yields exactly the rows whose value
coerces, in response order: a point whose value fails coercion is
dropped, all others are kept. -/
theorem normalizeSeries_of_keys (rows : List (String × J))
    (hkeys : ∀ kv ∈ rows, (pyParseInt kv.1).isSome = true) :
    normalizeSeries rows = some (rows.filterMap rowPoint) := by
  induction rows with
  | nil => rfl
  | cons kv rest ih =>
    have hk : (pyParseInt kv.1).isSome = true := hkeys kv (List.mem_cons_self kv rest)
    obtain ⟨y, hy⟩ := Option.isSome_iff_exists.mp hk
    have ih2 := ih (fun x hx => hkeys x (List.mem_cons_of_mem kv hx))
    obtain ⟨l, hl, hgl⟩ := Option.map_eq_some'.mp ih2
    unfold normalizeSeries convertIndex optMapM
    unfold convertIndex at hl
    rw [hy]
    simp only [Option.map_some']
    rw [hl]
    simp only [Option.map_some']
    rw [List.filterMap_cons, List.filterMap_cons]
    unfold rowPoint
    rw [hy]
    cases hv : toNumericJ kv.2 with
    | none => simp only [Option.map_none']; rw [hgl]; rfl
    | some q => simp only [Option.map_some']; rw [hgl]; rfl

/-- Claim C3: on a successful response whose year keys all parse, a
year whose value fails numeric coercion (non-numeric string, `null`,
nested object) is dropped from the SeriesResult while every other year
of the same response is preserved — the result is exactly the
response's rows filtered through per-point coercion, and no error
notice is raised. -/
theorem claim_C3 (net : String → RawResponse) (pais ind : String) (sy ey : Int)
    (j : J) (rows : List (String × J))
    (hresp : net (buildUrl ind pais sy ey) = RawResponse.status 200 (Body.json j))
    (hrows : getSeries j ind pais = some rows)
    (hkeys : ∀ kv ∈ rows, (pyParseInt kv.1).isSome = true) :
    (obtener_datos_fmi net pais ind sy ey).errorNotice = false ∧
    (obtener_datos_fmi net pais ind sy ey).series = rows.filterMap rowPoint := by
  have hpipe : fetchPipeline (net (buildUrl ind pais sy ey)) ind pais
      = some (rows.filterMap rowPoint) := by
    rw [hresp]
    simp only [fetchPipeline, bodyPipeline]
    rw [if_neg (by omega), hrows]
    exact normalizeSeries_of_keys rows hkeys
  rw [obtener_eq_ok hpipe]
  exact ⟨rfl, rfl⟩

/-- Witness for C3: the spec's mocked scenario
`fetch("US", "NGDP_R", 2020, 2022)` against
`{"values":{"NGDP_R":{"US":{"2020":"100","2021":"105.5","2022":null}}}}`
yields exactly `[(2020, 100.0), (2021, 105.5)]` — the `null` year 2022
is dropped, the others preserved, and no notice is raised. -/
theorem claim_C3_witness :
    getSeries jC3 "NGDP_R" "US" = some rowsC3 ∧
    (∀ kv ∈ rowsC3, (pyParseInt kv.1).isSome = true) ∧
    (obtener_datos_fmi netC3 "US" "NGDP_R" 2020 2022).series =
      [(2020, (100 : Rat)), (2021, mkRat 211 2)] ∧
    (obtener_datos_fmi netC3 "US" "NGDP_R" 2020 2022).errorNotice = false := by
  have h := claim_C3 netC3 "US" "NGDP_R" 2020 2022 jC3 rowsC3 rfl rfl (by decide)
  exact ⟨rfl, by decide, h.2.trans (by decide), h.1⟩
/-!
### Claim C10
-/

/-- A single unparseable year key makes the whole index conversion
raise. -/
theorem convertIndex_none_of_badkey (rows : List (String × J)) (kv : String × J)
    (hmem : kv ∈ rows) (hbad : pyParseInt kv.1 = none) :
    convertIndex rows = none := by
  induction rows with
  | nil => exact absurd hmem (List.not_mem_nil kv)
  | cons a rest ih =>
    unfold convertIndex optMapM
    rcases List.mem_cons.mp hmem with hkv | hkv
    · subst hkv
      rw [hbad]
      rfl
    · cases ha : pyParseInt a.1 with
      | none => rfl
      | some y =>
        simp only [Option.map_some']
        have hrest := ih hkv
        unfold convertIndex at hrest
        rw [hrest]

/-- Claim C10: a successful response containing a year key that cannot
be parsed as an integer causes the entire fetch to fail — the whole
SeriesResult becomes empty and the error notice is emitted — rather
than dropping only the offending point as is done for unparseable
values. -/
theorem claim_C10 (net : String → RawResponse) (pais ind : String) (sy ey : Int)
    (j : J) (rows : List (String × J)) (kv : String × J)
    (hresp : net (buildUrl ind pais sy ey) = RawResponse.status 200 (Body.json j))
    (hrows : getSeries j ind pais = some rows)
    (hmem : kv ∈ rows) (hbad : pyParseInt kv.1 = none) :
    (obtener_datos_fmi net pais ind sy ey).series = [] ∧
    (obtener_datos_fmi net pais ind sy ey).errorNotice = true := by
  have hpipe : fetchPipeline (net (buildUrl ind pais sy ey)) ind pais = none := by
    rw [hresp]
    simp only [fetchPipeline, bodyPipeline]
    rw [if_neg (by omega), hrows]
    show normalizeSeries rows = none
    unfold normalizeSeries
    rw [convertIndex_none_of_badkey rows kv hmem hbad]
    rfl
  rw [obtener_eq_error hpipe]
  exact ⟨rfl, rfl⟩

/-- Witness for C10: against `{"values":{"NGDP_R":{"US":{"2020":1,"abc":2}}}}`
the whole fetch fails — the parseable year 2020 is not kept. -/
theorem claim_C10_witness :
    getSeries jC10 "NGDP_R" "US" = some [("2020", J.num 1), ("abc", J.num 2)] ∧
    pyParseInt "abc" = none ∧
    (obtener_datos_fmi netC10 "US" "NGDP_R" 2020 2022).series = [] ∧
    (obtener_datos_fmi netC10 "US" "NGDP_R" 2020 2022).errorNotice = true :=
  ⟨rfl, rfl,
    claim_C10 netC10 "US" "NGDP_R" 2020 2022 jC10
      [("2020", J.num 1), ("abc", J.num 2)] ("abc", J.num 2) rfl rfl
      (List.mem_cons_of_mem _ (List.mem_cons_self _ _)) rfl⟩
/-!
### Claim C4
-/

/-- When the index conversion succeeds, the parsed year keys are
exactly the first components of the converted rows, in order. -/
theorem optMapM_keys_of_convertIndex (rows : List (String × J)) (l : List (Int × J))
    (h : convertIndex rows = some l) :
    optMapM (fun kv => pyParseInt kv.1) rows = some (l.map Prod.fst) := by
  induction rows generalizing l with
  | nil =>
    unfold convertIndex optMapM at h
    cases h
    rfl
  | cons a rest ih =>
    unfold convertIndex optMapM at h
    cases ha : pyParseInt a.1 with
    | none => rw [ha] at h; exact absurd h (by simp)
    | some y =>
      rw [ha] at h
      simp only [Option.map_some'] at h
      cases hr : optMapM (fun kv => Option.map (fun y => (y, kv.2)) (pyParseInt kv.1)) rest with
      | none => rw [hr] at h; exact absurd h (by simp)
      | some l2 =>
        rw [hr] at h
        have hl : l = (y, a.2) :: l2 := by
          injection h with h2
          exact h2.symm
        subst hl
        have ih2 := ih l2 hr
        simp only [optMapM]
        rw [ha, ih2]
        rfl

/-- Dropping coercion-failed rows yields a subsequence of the year
keys: `dropna` never reorders and never invents years. -/
theorem filterMap_years_sublist (l : List (Int × J)) :
    ((l.filterMap (fun yv => (toNumericJ yv.2).map (fun q => (yv.1, q)))).map Prod.fst).Sublist
      (l.map Prod.fst) := by
  induction l with
  | nil => exact List.Sublist.refl []
  | cons yv rest ih =>
    rw [List.filterMap_cons, List.map_cons]
    cases hv : toNumericJ yv.2 with
    | none => exact ih.cons yv.1
    | some q =>
      simp only [Option.map_some']
      rw [List.map_cons]
      exact ih.cons₂ yv.1

/-- The years of a fetched SeriesResult are a subsequence of the
upstream response's (integer-parsed) year keys: the code neither
sorts, nor filters by the requested range, nor reorders. -/
theorem series_years_sublist (net : String → RawResponse) (pais ind : String)
    (sy ey : Int) :
    (((obtener_datos_fmi net pais ind sy ey).series.map Prod.fst)).Sublist
      (responseYears (net (buildUrl ind pais sy ey)) ind pais) := by
  cases hp : fetchPipeline (net (buildUrl ind pais sy ey)) ind pais with
  | none =>
    rw [obtener_eq_error hp]
    exact List.nil_sublist _
  | some pts =>
    rw [obtener_eq_ok hp]
    cases hresp : net (buildUrl ind pais sy ey) with
    | transportError =>
      rw [hresp] at hp
      simp only [fetchPipeline] at hp
      exact Option.noConfusion hp
    | status code body =>
      rw [hresp] at hp
      simp only [fetchPipeline] at hp
      by_cases hc : 400 ≤ code ∧ code < 600
      · rw [if_pos hc] at hp; exact absurd hp (by simp)
      · rw [if_neg hc] at hp
        simp only [responseYears]
        rw [if_neg hc]
        cases body with
        | invalid =>
          simp only [bodyPipeline] at hp
          exact Option.noConfusion hp
        | json j =>
          simp only [bodyPipeline] at hp
          simp only [bodyYears]
          cases hs : getSeries j ind pais with
          | none =>
            rw [hs] at hp
            exact Option.noConfusion hp
          | some rows =>
            rw [hs] at hp
            have hp2 : normalizeSeries rows = some pts := hp
            show (List.map Prod.fst pts).Sublist
              (match optMapM (fun kv => pyParseInt kv.1) rows with
                | some ys => ys
                | none => [])
            unfold normalizeSeries at hp2
            obtain ⟨l, hci, hg⟩ := Option.map_eq_some'.mp hp2
            rw [optMapM_keys_of_convertIndex rows l hci]
            rw [← hg]
            exact filterMap_years_sublist l
/-- Counterexample to C4 as stated: against a successful upstream
response whose series is `{"2025": 5, "2019": 3}`, the fetch for the
requested range 2020-2022 succeeds (no notice) yet returns years
`[2025, 2019]` — neither strictly increasing nor a subset of the
requested range: the code performs no sorting and no range
filtering. -/
theorem claim_C4_counterexample :
    (obtener_datos_fmi netC4 "US" "NGDP_R" 2020 2022).errorNotice = false ∧
    (obtener_datos_fmi netC4 "US" "NGDP_R" 2020 2022).series.map Prod.fst = [2025, 2019] ∧
    ¬ (List.Pairwise (fun a b => a < b)
        ((obtener_datos_fmi netC4 "US" "NGDP_R" 2020 2022).series.map Prod.fst) ∧
       ∀ p ∈ (obtener_datos_fmi netC4 "US" "NGDP_R" 2020 2022).series,
         2020 ≤ p.1 ∧ p.1 ≤ 2022) := by
  refine ⟨by decide, by decide, ?_⟩
  intro h
  have h25 : ((2025 : Int), (5 : Rat)) ∈ (obtener_datos_fmi netC4 "US" "NGDP_R" 2020 2022).series := by decide
  have := (h.2 _ h25).2
  omega

/-- Claim C4 (amended): whenever the upstream response's year keys —
parsed as integers, in response order — are strictly increasing and
all lie within the requested `[start_year, end_year]` range, the
returned SeriesResult's years are unique, strictly increasing and a
subset of that range.  (The code itself neither sorts nor filters; it
preserves the upstream order, so the invariant holds exactly when the
upstream supplies it, which the failure case — empty series —
satisfies vacuously.) -/
theorem claim_C4 (net : String → RawResponse) (pais ind : String) (sy ey : Int)
    (hsort : List.Pairwise (fun a b => a < b)
      (responseYears (net (buildUrl ind pais sy ey)) ind pais))
    (hrange : ∀ y ∈ responseYears (net (buildUrl ind pais sy ey)) ind pais,
      sy ≤ y ∧ y ≤ ey) :
    List.Pairwise (fun a b => a < b)
      ((obtener_datos_fmi net pais ind sy ey).series.map Prod.fst) ∧
    ∀ p ∈ (obtener_datos_fmi net pais ind sy ey).series, sy ≤ p.1 ∧ p.1 ≤ ey := by
  have hsub := series_years_sublist net pais ind sy ey
  refine ⟨hsort.sublist hsub, ?_⟩
  intro p hp
  exact hrange p.1 (hsub.subset (List.mem_map_of_mem Prod.fst hp))

/-- Witness for C4 at the in-order, in-range mocked response of the C3
scenario. -/
theorem claim_C4_witness :
    List.Pairwise (fun a b => a < b)
      (responseYears (netC3 (buildUrl "NGDP_R" "US" 2020 2022)) "NGDP_R" "US") ∧
    (∀ y ∈ responseYears (netC3 (buildUrl "NGDP_R" "US" 2020 2022)) "NGDP_R" "US",
      2020 ≤ y ∧ y ≤ 2022) ∧
    (List.Pairwise (fun a b => a < b)
      ((obtener_datos_fmi netC3 "US" "NGDP_R" 2020 2022).series.map Prod.fst) ∧
     ∀ p ∈ (obtener_datos_fmi netC3 "US" "NGDP_R" 2020 2022).series,
       2020 ≤ p.1 ∧ p.1 ≤ 2022) :=
  ⟨by decide, by decide, claim_C4 netC3 "US" "NGDP_R" 2020 2022 (by decide) (by decide)⟩
/-!
### Claim C5
-/

/-- If every selected country's fetch is empty, the loop collects
nothing. -/
theorem runPanelLoop_all_empty (fetchFn : Pais → List (Int × Rat)) (sel : List Pais)
    (h : ∀ p ∈ sel, fetchFn p = []) :
    (runPanelLoop fetchFn sel).1 = [] := by
  induction sel with
  | nil => rfl
  | cons p rest ih =>
    simp only [runPanelLoop]
    rw [if_pos (h p (List.mem_cons_self p rest))]
    exact ih (fun q hq => h q (List.mem_cons_of_mem p hq))

/-- Counterexample to C5 as stated: with MEX and USA selected and both
fetches empty, the panel block renders nothing at all — in particular
`warningShown = false`: no "no data available" notice is emitted for
the empty panel (the claim asserts one is). -/
theorem claim_C5_counterexample :
    (renderIndicatorPanel (fun _ => []) [paisMEX, paisUSA]).panel = [] ∧
    (renderIndicatorPanel (fun _ => []) [paisMEX, paisUSA]).chartRendered = false ∧
    (renderIndicatorPanel (fun _ => []) [paisMEX, paisUSA]).warningShown = false := by
  refine ⟨?_, ?_, ?_⟩ <;> rfl

/-- Claim C5 (amended): when no selected country produces a non-empty
SeriesResult, the indicator block is guarded by `if datos:` and
silently skips the panel — it renders no chart and also emits no
notice.  (The "No hay datos disponibles" warning inside
`crear_grafico_comparativo` is unreachable from the driver, which only
calls it with non-empty data.) -/
theorem claim_C5 (fetchFn : Pais → List (Int × Rat)) (sel : List Pais)
    (h : ∀ p ∈ sel, fetchFn p = []) :
    (renderIndicatorPanel fetchFn sel).panel = [] ∧
    (renderIndicatorPanel fetchFn sel).chartRendered = false ∧
    (renderIndicatorPanel fetchFn sel).warningShown = false := by
  have hd := runPanelLoop_all_empty fetchFn sel h
  simp [renderIndicatorPanel, hd]

/-- Witness for C5 at the concrete two-country selection with failing
fetches. -/
theorem claim_C5_witness :
    (∀ p ∈ [paisMEX, paisUSA], (fun (_ : Pais) => ([] : List (Int × Rat))) p = []) ∧
    (renderIndicatorPanel (fun _ => []) [paisMEX, paisUSA]).panel = [] ∧
    (renderIndicatorPanel (fun _ => []) [paisMEX, paisUSA]).chartRendered = false ∧
    (renderIndicatorPanel (fun _ => []) [paisMEX, paisUSA]).warningShown = false :=
  ⟨fun _ _ => rfl, claim_C5 (fun _ => []) [paisMEX, paisUSA] (fun _ _ => rfl)⟩

/-!
### Claim C6
-/

/-- The loop issues exactly one fetch per selected country, in
selection order. -/
theorem runPanelLoop_calls (fetchFn : Pais → List (Int × Rat)) (sel : List Pais) :
    (runPanelLoop fetchFn sel).2 = sel := by
  induction sel with
  | nil => rfl
  | cons p rest ih =>
    simp only [runPanelLoop]
    rw [ih]

/-- The rendered panel is always the concatenation of the collected
per-country tables. -/
theorem renderIndicatorPanel_panel (fetchFn : Pais → List (Int × Rat)) (sel : List Pais) :
    (renderIndicatorPanel fetchFn sel).panel = (runPanelLoop fetchFn sel).1.flatten := by
  by_cases h : (runPanelLoop fetchFn sel).1 = []
  · simp [renderIndicatorPanel, h]
  · simp [renderIndicatorPanel, h]

/-- Countries whose fetch is empty contribute nothing: removing them
from the selection leaves the collected tables unchanged. -/
theorem runPanelLoop_filter_empty (fetchFn : Pais → List (Int × Rat)) (sel : List Pais)
    (p : Pais) (hp : fetchFn p = []) :
    (runPanelLoop fetchFn (sel.filter (fun q => q ≠ p))).1 = (runPanelLoop fetchFn sel).1 := by
  induction sel with
  | nil => rfl
  | cons q rest ih =>
    by_cases hq : q = p
    · subst hq
      rw [List.filter_cons_of_neg (by simp)]
      rw [ih]
      simp only [runPanelLoop]
      rw [if_pos hp]
    · rw [List.filter_cons_of_pos (by simp [hq])]
      simp only [runPanelLoop]
      rw [ih]

/-- A tagged table of a country with a non-empty fetch is among the
collected tables. -/
theorem tagRows_mem_runPanelLoop (fetchFn : Pais → List (Int × Rat)) (sel : List Pais)
    (q : Pais) (hq : q ∈ sel) (hne : fetchFn q ≠ []) :
    tagRows q (fetchFn q) ∈ (runPanelLoop fetchFn sel).1 := by
  induction sel with
  | nil => exact absurd hq (List.not_mem_nil q)
  | cons a rest ih =>
    simp only [runPanelLoop]
    rcases List.mem_cons.mp hq with h | h
    · subst h
      rw [if_neg hne]
      exact List.mem_cons_self _ _
    · by_cases ha : fetchFn a = []
      · rw [if_pos ha]; exact ih h
      · rw [if_neg ha]; exact List.mem_cons_of_mem _ (ih h)

/-- Claim C6: the aggregation driver calls fetch exactly once per
selected country (in order), skips countries whose SeriesResult is
empty (removing such a country from the selection does not change the
panel), and tags each remaining row with the producing country's
display name before concatenating (every point of a non-empty country
appears in the panel tagged with that country's `nombre`). -/
theorem claim_C6 (fetchFn : Pais → List (Int × Rat)) (sel : List Pais) (p : Pais)
    (hp : fetchFn p = []) :
    (renderIndicatorPanel fetchFn sel).fetchCalls = sel ∧
    (renderIndicatorPanel fetchFn (sel.filter (fun q => q ≠ p))).panel =
      (renderIndicatorPanel fetchFn sel).panel ∧
    ∀ q ∈ sel, fetchFn q ≠ [] → ∀ pt ∈ fetchFn q,
      (⟨pt.1, pt.2, q.nombre⟩ : PanelRow) ∈ (renderIndicatorPanel fetchFn sel).panel := by
  refine ⟨?_, ?_, ?_⟩
  · by_cases h : (runPanelLoop fetchFn sel).1 = [] <;>
      simp [renderIndicatorPanel, h, runPanelLoop_calls]
  · rw [renderIndicatorPanel_panel, renderIndicatorPanel_panel,
      runPanelLoop_filter_empty fetchFn sel p hp]
  · intro q hq hne pt hpt
    rw [renderIndicatorPanel_panel]
    have hmem := tagRows_mem_runPanelLoop fetchFn sel q hq hne
    have hrow : (⟨pt.1, pt.2, q.nombre⟩ : PanelRow) ∈ tagRows q (fetchFn q) :=
      List.mem_map_of_mem _ hpt
    exact List.mem_flatten.mpr ⟨tagRows q (fetchFn q), hmem, hrow⟩

/-- Witness for C6: the spec's concrete scenario — selection
`[MEX, USA]` against an upstream that only carries a US series, so
MEX's fetch fails (schema mismatch → empty) while USA's succeeds: the
aggregated panel contains exactly USA's rows tagged "Estados Unidos",
and one fetch was issued per country. -/
theorem claim_C6_witness :
    fetchC6 paisMEX = [] ∧
    (renderIndicatorPanel fetchC6 [paisMEX, paisUSA]).panel =
      [⟨2020, 100, "Estados Unidos"⟩, ⟨2021, 105, "Estados Unidos"⟩] ∧
    (renderIndicatorPanel fetchC6 [paisMEX, paisUSA]).fetchCalls = [paisMEX, paisUSA] :=
  ⟨by decide, by decide,
    (claim_C6 fetchC6 [paisMEX, paisUSA] paisMEX (by decide)).1⟩
/-!
### Claim C7
-/

/-- Counterexample to C7 as stated: in the one-country scenario with
exports 50 and imports 70, the two grouped bars do carry the values 50
and 70, but under the source's column labels "Exportaciones" and
"Importaciones" — no bar is labelled "Exports" or "Imports". -/
theorem claim_C7_counterexample :
    balanzaBars (balanzaLoop netC7 2023 [paisUSA]).1 =
      [("Estados Unidos", "Exportaciones", (50 : Rat)),
       ("Estados Unidos", "Importaciones", (70 : Rat))] ∧
    ∀ b ∈ balanzaBars (balanzaLoop netC7 2023 [paisUSA]).1,
      b.2.1 ≠ "Exports" ∧ b.2.1 ≠ "Imports" := by
  refine ⟨by decide, by decide⟩

/-- Claim C7 (amended): the trade-balance block fetches exactly two
indicators per country — exports `TXG_FOB_USD` and imports
`TMG_CIF_USD` — each restricted to the single year equal to the end of
the selected range, and for one country with exports 50 and imports 70
it produces a grouped comparison of exactly two bars with values 50
and 70, under the source's labels "Exportaciones"/"Importaciones"
(not "Exports"/"Imports"). -/
theorem claim_C7 (net : String → RawResponse) (p : Pais) (anioFin : Int)
    (hexp : (obtener_datos_fmi net p.iso2 "TXG_FOB_USD" anioFin anioFin).series
      = [(anioFin, 50)])
    (himp : (obtener_datos_fmi net p.iso2 "TMG_CIF_USD" anioFin anioFin).series
      = [(anioFin, 70)]) :
    (balanzaLoop net anioFin [p]).2 =
      [(p.iso2, "TXG_FOB_USD", anioFin, anioFin),
       (p.iso2, "TMG_CIF_USD", anioFin, anioFin)] ∧
    balanzaBars (balanzaLoop net anioFin [p]).1 =
      [(p.nombre, "Exportaciones", (50 : Rat)),
       (p.nombre, "Importaciones", (70 : Rat))] := by
  constructor
  · simp only [balanzaLoop]
    rw [hexp, himp]
  · simp only [balanzaLoop]
    rw [hexp, himp]
    simp [balanzaBars]

/-- Witness for C7 against the mocked upstream `netC7` (US, year 2023,
exports 50, imports 70). -/
theorem claim_C7_witness :
    (obtener_datos_fmi netC7 paisUSA.iso2 "TXG_FOB_USD" 2023 2023).series
      = [(2023, 50)] ∧
    (obtener_datos_fmi netC7 paisUSA.iso2 "TMG_CIF_USD" 2023 2023).series
      = [(2023, 70)] ∧
    (balanzaLoop netC7 2023 [paisUSA]).2 =
      [(paisUSA.iso2, "TXG_FOB_USD", 2023, 2023),
       (paisUSA.iso2, "TMG_CIF_USD", 2023, 2023)] ∧
    balanzaBars (balanzaLoop netC7 2023 [paisUSA]).1 =
      [(paisUSA.nombre, "Exportaciones", (50 : Rat)),
       (paisUSA.nombre, "Importaciones", (70 : Rat))] :=
  ⟨by decide, by decide, claim_C7 netC7 paisUSA 2023 (by decide) (by decide)⟩
/-!
### Claims C2, C8, C9 — the cache contract
-/

theorem lookupFresh_nil (now : Nat) (k : CacheKey) : lookupFresh [] now k = none := rfl

/-- A single-entry cache hits its own key while the entry is younger
than the time-to-live. -/
theorem lookupFresh_single_hit (t now : Nat) (k : CacheKey) (v : List (Int × Rat))
    (h : now < t + 3600) :
    lookupFresh [(k, t, v)] now k = some v := by
  unfold lookupFresh
  rw [List.find?_cons_of_pos _ (by simp)]
  exact if_pos h

/-- A single-entry cache misses its own key once the time-to-live has
elapsed. -/
theorem lookupFresh_single_expired (t now : Nat) (k : CacheKey) (v : List (Int × Rat))
    (h : t + 3600 ≤ now) :
    lookupFresh [(k, t, v)] now k = none := by
  unfold lookupFresh
  rw [List.find?_cons_of_pos _ (by simp)]
  show (if now < t + 3600 then some v else none) = none
  exact if_neg (by omega)

/-- A single-entry cache never hits a different key: the cache is
keyed by the full argument tuple. -/
theorem lookupFresh_single_other (t now : Nat) (k k2 : CacheKey) (v : List (Int × Rat))
    (h : k2 ≠ k) :
    lookupFresh [(k, t, v)] now k2 = none := by
  unfold lookupFresh
  rw [List.find?_cons_of_neg _ (fun hdec => h (of_decide_eq_true hdec).symm)]
  rfl

/-- A cache miss executes the function body once and stores its
series. -/
theorem cachedFetchStep_miss (c : Cache) (now : Nat) (net : String → RawResponse)
    (pais ind : String) (sy ey : Int)
    (h : lookupFresh c now ⟨pais, ind, sy, ey⟩ = none) :
    cachedFetchStep c now net pais ind sy ey =
      ⟨(obtener_datos_fmi net pais ind sy ey).series,
       cacheInsert c ⟨pais, ind, sy, ey⟩ now (obtener_datos_fmi net pais ind sy ey).series,
       1,
       if (obtener_datos_fmi net pais ind sy ey).slept then mkRat 1 2 else 0,
       (obtener_datos_fmi net pais ind sy ey).errorNotice⟩ := by
  unfold cachedFetchStep
  rw [h]

/-- A fresh cache hit returns the stored series with no network call,
no delay, and no notice. -/
theorem cachedFetchStep_hit (c : Cache) (now : Nat) (net : String → RawResponse)
    (pais ind : String) (sy ey : Int) (v : List (Int × Rat))
    (h : lookupFresh c now ⟨pais, ind, sy, ey⟩ = some v) :
    cachedFetchStep c now net pais ind sy ey = ⟨v, c, 0, 0, false⟩ := by
  unfold cachedFetchStep
  rw [h]

/-- Claim C2: starting from an empty cache, a first call at time `t1`
performs one network call and stores its result under the full
argument tuple; a second identical call at any `t2` within the
3600-second time-to-live performs zero network calls and returns an
identical SeriesResult; an identical call at any `t3` at or past the
time-to-live performs exactly one new network call; and a call with
any differing key tuple at any time `t4` also performs its own network
call (the cache is keyed by the full tuple). -/
theorem claim_C2 (net1 net2 net3 net4 : String → RawResponse)
    (pais ind pais2 ind2 : String) (sy ey sy2 ey2 : Int) (t1 t2 t3 t4 : Nat)
    (_h12 : t1 ≤ t2) (h2 : t2 < t1 + 3600) (h3 : t1 + 3600 ≤ t3)
    (hk : (⟨pais2, ind2, sy2, ey2⟩ : CacheKey) ≠ ⟨pais, ind, sy, ey⟩) :
    (cachedFetchStep [] t1 net1 pais ind sy ey).networkCalls = 1 ∧
    (cachedFetchStep (cachedFetchStep [] t1 net1 pais ind sy ey).cache t2 net2
      pais ind sy ey).networkCalls = 0 ∧
    (cachedFetchStep (cachedFetchStep [] t1 net1 pais ind sy ey).cache t2 net2
      pais ind sy ey).value = (cachedFetchStep [] t1 net1 pais ind sy ey).value ∧
    (cachedFetchStep (cachedFetchStep [] t1 net1 pais ind sy ey).cache t3 net3
      pais ind sy ey).networkCalls = 1 ∧
    (cachedFetchStep (cachedFetchStep [] t1 net1 pais ind sy ey).cache t4 net4
      pais2 ind2 sy2 ey2).networkCalls = 1 := by
  have hs1 := cachedFetchStep_miss [] t1 net1 pais ind sy ey (lookupFresh_nil t1 _)
  have hcache : (cachedFetchStep [] t1 net1 pais ind sy ey).cache =
      [(⟨pais, ind, sy, ey⟩, t1, (obtener_datos_fmi net1 pais ind sy ey).series)] := by
    rw [hs1]
    rfl
  refine ⟨by rw [hs1], ?_, ?_, ?_, ?_⟩
  · rw [hcache, cachedFetchStep_hit _ t2 net2 pais ind sy ey _
      (lookupFresh_single_hit t1 t2 _ _ h2)]
  · rw [hcache, cachedFetchStep_hit _ t2 net2 pais ind sy ey _
      (lookupFresh_single_hit t1 t2 _ _ h2), hs1]
  · rw [hcache, cachedFetchStep_miss _ t3 net3 pais ind sy ey
      (lookupFresh_single_expired t1 t3 _ _ h3)]
  · rw [hcache, cachedFetchStep_miss _ t4 net4 pais2 ind2 sy2 ey2
      (lookupFresh_single_other t1 t4 _ _ _ hk)]

/-- Witness for C2 at concrete times and keys: t1 = 0, hit at t2 =
3599, refetch at t3 = 3600, and an immediate call for a different
country code. -/
theorem claim_C2_witness :
    ((0 : Nat) ≤ 3599 ∧ (3599 : Nat) < 0 + 3600 ∧ (0 : Nat) + 3600 ≤ 3600 ∧
      (⟨"MX", "NGDP_R", 2010, 2023⟩ : CacheKey) ≠ ⟨"US", "NGDP_R", 2010, 2023⟩) ∧
    (cachedFetchStep [] 0 netC3 "US" "NGDP_R" 2010 2023).networkCalls = 1 ∧
    (cachedFetchStep (cachedFetchStep [] 0 netC3 "US" "NGDP_R" 2010 2023).cache 3599 netC3
      "US" "NGDP_R" 2010 2023).networkCalls = 0 ∧
    (cachedFetchStep (cachedFetchStep [] 0 netC3 "US" "NGDP_R" 2010 2023).cache 3599 netC3
      "US" "NGDP_R" 2010 2023).value = (cachedFetchStep [] 0 netC3 "US" "NGDP_R" 2010 2023).value ∧
    (cachedFetchStep (cachedFetchStep [] 0 netC3 "US" "NGDP_R" 2010 2023).cache 3600 netC3
      "US" "NGDP_R" 2010 2023).networkCalls = 1 ∧
    (cachedFetchStep (cachedFetchStep [] 0 netC3 "US" "NGDP_R" 2010 2023).cache 0 netC3
      "MX" "NGDP_R" 2010 2023).networkCalls = 1 :=
  ⟨⟨by decide, by decide, by decide, by decide⟩,
    claim_C2 netC3 netC3 netC3 netC3 "US" "NGDP_R" "MX" "NGDP_R" 2010 2023 2010 2023
      0 3599 3600 0 (by decide) (by decide) (by decide) (by decide)⟩
/-- Claim C8: the 0.5-time-unit delay occurs if and only if the call
misses the cache and the fetch-and-parse path succeeds; in every other
case (cache hit, or a failing fetch) the delay is 0. -/
theorem claim_C8 (c : Cache) (now : Nat) (net : String → RawResponse)
    (pais ind : String) (sy ey : Int) :
    ((cachedFetchStep c now net pais ind sy ey).delay = mkRat 1 2 ↔
      (lookupFresh c now ⟨pais, ind, sy, ey⟩ = none ∧
       fetchParses (net (buildUrl ind pais sy ey)) ind pais = true)) ∧
    ((cachedFetchStep c now net pais ind sy ey).delay = mkRat 1 2 ∨
     (cachedFetchStep c now net pais ind sy ey).delay = 0) := by
  have hzero : ¬ ((0 : Rat) = mkRat 1 2) := by decide
  cases hl : lookupFresh c now (⟨pais, ind, sy, ey⟩ : CacheKey) with
  | some v =>
    rw [cachedFetchStep_hit c now net pais ind sy ey v hl]
    exact ⟨⟨fun hd => absurd hd hzero,
      fun hd => Option.noConfusion hd.1⟩, Or.inr rfl⟩
  | none =>
    rw [cachedFetchStep_miss c now net pais ind sy ey hl]
    rw [obtener_slept_eq net pais ind sy ey]
    cases hf : fetchParses (net (buildUrl ind pais sy ey)) ind pais with
    | true =>
      rw [if_pos rfl]
      exact ⟨⟨fun _ => ⟨rfl, rfl⟩, fun _ => rfl⟩, Or.inl rfl⟩
    | false =>
      rw [if_neg (by simp)]
      exact ⟨⟨fun hd => absurd hd hzero, fun hd => absurd hd.2 (by simp)⟩, Or.inr rfl⟩

/-- Claim C9: a failed fetch outcome — the empty SeriesResult produced
by the error branch — is cached under the same key and time-to-live as
successful results: the first call stores `[]` under the full tuple at
time `t1`, and an identical call at any `t2` within the 3600-second
time-to-live returns that cached empty result with zero network
calls. -/
theorem claim_C9 (net1 net2 : String → RawResponse) (pais ind : String) (sy ey : Int)
    (t1 t2 : Nat)
    (hfail : (obtener_datos_fmi net1 pais ind sy ey).errorNotice = true)
    (h2 : t2 < t1 + 3600) :
    (cachedFetchStep [] t1 net1 pais ind sy ey).value = [] ∧
    (cachedFetchStep [] t1 net1 pais ind sy ey).cache =
      [(⟨pais, ind, sy, ey⟩, t1, [])] ∧
    (cachedFetchStep (cachedFetchStep [] t1 net1 pais ind sy ey).cache t2 net2
      pais ind sy ey).networkCalls = 0 ∧
    (cachedFetchStep (cachedFetchStep [] t1 net1 pais ind sy ey).cache t2 net2
      pais ind sy ey).value = [] := by
  have hempty := obtener_series_empty_of_error hfail
  have hs1 := cachedFetchStep_miss [] t1 net1 pais ind sy ey (lookupFresh_nil t1 _)
  rw [hempty] at hs1
  have hcache : (cachedFetchStep [] t1 net1 pais ind sy ey).cache =
      [(⟨pais, ind, sy, ey⟩, t1, [])] := by
    rw [hs1]
    rfl
  refine ⟨by rw [hs1], hcache, ?_, ?_⟩
  · rw [hcache, cachedFetchStep_hit _ t2 net2 pais ind sy ey _
      (lookupFresh_single_hit t1 t2 _ _ h2)]
  · rw [hcache, cachedFetchStep_hit _ t2 net2 pais ind sy ey _
      (lookupFresh_single_hit t1 t2 _ _ h2)]

/-- Witness for C9: a transport failure cached at t1 = 0 and re-read
at t2 = 100. -/
theorem claim_C9_witness :
    (obtener_datos_fmi netFail "US" "NGDP_R" 2010 2023).errorNotice = true ∧
    ((100 : Nat) < 0 + 3600) ∧
    (cachedFetchStep [] 0 netFail "US" "NGDP_R" 2010 2023).value = [] ∧
    (cachedFetchStep [] 0 netFail "US" "NGDP_R" 2010 2023).cache =
      [(⟨"US", "NGDP_R", 2010, 2023⟩, 0, [])] ∧
    (cachedFetchStep (cachedFetchStep [] 0 netFail "US" "NGDP_R" 2010 2023).cache 100 netFail
      "US" "NGDP_R" 2010 2023).networkCalls = 0 ∧
    (cachedFetchStep (cachedFetchStep [] 0 netFail "US" "NGDP_R" 2010 2023).cache 100 netFail
      "US" "NGDP_R" 2010 2023).value = [] :=
  ⟨rfl, by decide,
    claim_C9 netFail netFail "US" "NGDP_R" 2010 2023 0 100 rfl (by decide)⟩
